import Mathlib

/-!
# Smart Multiplug System — consumption aggregation engine

Shallow embedding of `src/app.py` (a 4-port smart-multiplug energy monitor).
Python floats are modelled as exact rationals (ℚ); every numeric literal that
occurs in the claims (0.01, 0.08, …) is exactly representable by the source's
formulas over ℚ.  The SQLite tables behind SQLAlchemy are modelled as total
functions from their unique keys to `Option` records (at most one row per key,
which the source guarantees by its fetch-or-create pattern).  The ambient
wall clock (`datetime.now()`) is passed in explicitly as a `Date`.
-/

namespace Multiplug

/-- A calendar date; `datetime.now().date()` with its year/month/day fields. -/
structure Date where
  year : ℕ
  month : ℕ
  day : ℕ
deriving DecidableEq

/-- Row of `realtime_data` (one per port): latest voltage/current/power sample
plus the derived `online`/`offline` status string. -/
structure RealtimeRec where
  voltage : ℚ
  current : ℚ
  power : ℚ
  status : String
deriving DecidableEq

/-- Row of `daily_consumption`, keyed by (date, port); columns default to 0. -/
structure DailyRec where
  energy_kwh : ℚ
  cost_bdt : ℚ
  runtime_minutes : ℕ
deriving DecidableEq

/-- Row of `monthly_consumption`, keyed by (year, month, port). -/
structure MonthlyRec where
  energy_kwh : ℚ
  cost_bdt : ℚ
deriving DecidableEq

/-- The persistent state: the three tables plus the electricity-rate setting
(the one `settings` entry the program reads, as the rational value that
`get_electricity_rate()` returns). -/
structure St where
  realtime : ℤ → Option RealtimeRec
  daily : Date → ℤ → Option DailyRec
  monthly : ℕ → ℕ → ℤ → Option MonthlyRec
  rate : ℚ

/-- SQL column defaults of `daily_consumption`. -/
def zeroDaily : DailyRec := ⟨0, 0, 0⟩

/-- SQL column defaults of `monthly_consumption`. -/
def zeroMonthly : MonthlyRec := ⟨0, 0⟩

/-- `get_electricity_rate()`: the configured rate (the settings lookup with
its built-in default is abstracted to the value it yields). -/
def get_electricity_rate (st : St) : ℚ := st.rate

/-- `calculate_energy_kwh(power_watts, minutes)`:
`(power_watts * minutes) / (1000 * 60)`. -/
def calculate_energy_kwh (power_watts minutes : ℚ) : ℚ :=
  (power_watts * minutes) / (1000 * 60)

/-- `update_realtime_data(port, voltage, current, power)`: derive status and
replace (delete+insert) the row for `port`. -/
def update_realtime_data (port : ℤ) (voltage current power : ℚ) (st : St) : St :=
  let status : String := if power > 0 then "online" else "offline"
  { st with
    realtime := fun p =>
      if p = port then some ⟨voltage, current, power, status⟩ else st.realtime p }

/-- `update_daily_consumption(port, power_watts)`: fetch-or-create the
(today, port) row, add the 1-minute energy/cost increments, and bump runtime
by 1 when `power_watts > 0`.  `today` is `datetime.now().date()` made explicit. -/
def update_daily_consumption (today : Date) (port : ℤ) (power_watts : ℚ) (st : St) : St :=
  let energy_kwh := calculate_energy_kwh power_watts 1
  let cost_bdt := energy_kwh * get_electricity_rate st
  let prior := (st.daily today port).getD zeroDaily
  let updated : DailyRec :=
    { energy_kwh := prior.energy_kwh + energy_kwh
      cost_bdt := prior.cost_bdt + cost_bdt
      runtime_minutes :=
        if power_watts > 0 then prior.runtime_minutes + 1 else prior.runtime_minutes }
  { st with
    daily := fun d p => if d = today ∧ p = port then some updated else st.daily d p }

/-- `update_monthly_consumption(port, energy_kwh, cost_bdt)`: fetch-or-create
the (year, month, port) row and add the given increments. -/
def update_monthly_consumption (year month : ℕ) (port : ℤ) (energy_kwh cost_bdt : ℚ)
    (st : St) : St :=
  let prior := (st.monthly year month port).getD zeroMonthly
  let updated : MonthlyRec :=
    { energy_kwh := prior.energy_kwh + energy_kwh
      cost_bdt := prior.cost_bdt + cost_bdt }
  { st with
    monthly := fun y m p =>
      if y = year ∧ m = month ∧ p = port then some updated else st.monthly y m p }

/-- The aggregation step both callers (`receive_esp_data` and
`generate_sample_data`) perform after a reading: `update_daily_consumption`
followed by `update_monthly_consumption` with
`energy_kwh = calculate_energy_kwh(power, 1)` and `cost = energy_kwh * rate`.
This is the spec's `apply_reading` with its fixed 1-minute interval. -/
def apply_reading (now : Date) (port : ℤ) (power : ℚ) (st : St) : St :=
  let st1 := update_daily_consumption now port power st
  let energy_kwh := calculate_energy_kwh power 1
  let cost_bdt := energy_kwh * get_electricity_rate st1
  update_monthly_consumption now.year now.month port energy_kwh cost_bdt st1

/-- `format_runtime(minutes)`: `"{minutes // 60}h {minutes % 60}m"`. -/
def format_runtime (minutes : ℕ) : String :=
  toString (minutes / 60) ++ "h " ++ toString (minutes % 60) ++ "m"

/-- Observation: daily energy at a key, an absent row reading as 0. -/
def dailyEnergy (d : Date) (port : ℤ) (st : St) : ℚ :=
  ((st.daily d port).getD zeroDaily).energy_kwh

/-- Observation: daily cost at a key, an absent row reading as 0. -/
def dailyCost (d : Date) (port : ℤ) (st : St) : ℚ :=
  ((st.daily d port).getD zeroDaily).cost_bdt

/-- Observation: daily runtime minutes at a key, an absent row reading as 0. -/
def dailyRuntime (d : Date) (port : ℤ) (st : St) : ℕ :=
  ((st.daily d port).getD zeroDaily).runtime_minutes

/-- Observation: monthly energy at a key, an absent row reading as 0. -/
def monthlyEnergy (year month : ℕ) (port : ℤ) (st : St) : ℚ :=
  ((st.monthly year month port).getD zeroMonthly).energy_kwh

/-- Observation: monthly cost at a key, an absent row reading as 0. -/
def monthlyCost (year month : ℕ) (port : ℤ) (st : St) : ℚ :=
  ((st.monthly year month port).getD zeroMonthly).cost_bdt

/-! ## The ingestion endpoint (`POST /api/data`) -/

/-- Python truncation toward zero, as `int()` applied to a number. -/
def float_to_int (q : ℚ) : ℤ :=
  if 0 ≤ q then ⌊q⌋ else ⌈q⌉

/-- A JSON field value as the handler sees it: either a value that Python's
`int()`/`float()` conversions accept (modelled by the rational it denotes,
`int()` truncating toward zero), or one on which the conversion raises.
(The narrow class of strings accepted by `float()` but not `int()` is not
needed by any property below and is folded into `num`/`nonNumeric`.) -/
inductive PyVal where
  | num : ℚ → PyVal
  | nonNumeric : PyVal
deriving DecidableEq

/-- `float(v)`, `none` when the conversion raises `ValueError`. -/
def pyFloat : PyVal → Option ℚ
  | .num q => some q
  | .nonNumeric => none

/-- `int(v)`, `none` when the conversion raises `ValueError`. -/
def pyInt : PyVal → Option ℤ
  | .num q => some (float_to_int q)
  | .nonNumeric => none

/-- The JSON body of a `POST /api/data` request: each required field either
present with some value or missing. -/
structure EspRequest where
  port : Option PyVal
  voltage : Option PyVal
  current : Option PyVal
  power : Option PyVal

/-- Outcome of a state-changing route: HTTP status code, resulting state, and
whether a `data_update` broadcast was emitted. -/
structure RouteResult where
  status : ℕ
  state : St
  broadcast : Bool

/-- `receive_esp_data()`: validate presence of the four required fields (400
when one is missing), convert `port` with `int()` (a raised `ValueError` is
caught by the catch-all handler: 500), range-check the port (400 when outside
1..4), convert `voltage`/`current`/`power` with `float()` (500 on a raise),
then update realtime, daily and monthly tables and broadcast (200). -/
def receive_esp_data (now : Date) (st : St) (req : EspRequest) : RouteResult :=
  match req.port, req.voltage, req.current, req.power with
  | some pv, some vv, some cv, some pwv =>
    match pyInt pv with
    | none => ⟨500, st, false⟩
    | some port =>
      if port < 1 ∨ port > 4 then ⟨400, st, false⟩
      else
        match pyFloat vv, pyFloat cv, pyFloat pwv with
        | some voltage, some current, some power =>
          let st1 := update_realtime_data port voltage current power st
          let st2 := update_daily_consumption now port power st1
          let energy_kwh := calculate_energy_kwh power 1
          let cost_bdt := energy_kwh * get_electricity_rate st2
          let st3 := update_monthly_consumption now.year now.month port energy_kwh cost_bdt st2
          ⟨200, st3, true⟩
        | _, _, _ => ⟨500, st, false⟩
  | _, _, _, _ => ⟨400, st, false⟩

/-- `reset_daily_data()` (`POST /api/reset-daily`): delete every
`daily_consumption` row dated today (every port), commit, broadcast. -/
def reset_daily_data (today : Date) (st : St) : RouteResult :=
  ⟨200, { st with daily := fun d p => if d = today then none else st.daily d p }, true⟩

/-! ## The dashboard projection (`get_dashboard_data`) -/

/-- Round-half-to-even to an integer, the rounding of Python's `round`. -/
def round_half_even (q : ℚ) : ℤ :=
  let f := ⌊q⌋
  if q - f < 1 / 2 then f
  else if 1 / 2 < q - f then f + 1
  else if f % 2 = 0 then f else f + 1

/-- Python's `round(x, 2)` over the exact rational model. -/
def py_round2 (q : ℚ) : ℚ :=
  (round_half_even (q * 100) : ℚ) / 100

/-- One `realtime` entry of the dashboard dict: the stored row, or the
all-zero offline default when the port has no row. -/
def realtime_view (st : St) (port : ℤ) : RealtimeRec :=
  (st.realtime port).getD ⟨0, 0, 0, "offline"⟩

/-- One per-port `today` entry of the dashboard dict (2-decimal display
rounding, formatted runtime; zero defaults when the row is absent). -/
structure DayView where
  energy : ℚ
  cost : ℚ
  runtime : String
deriving DecidableEq

/-- Per-port slice of today's consumption as the dashboard displays it. -/
def daily_view (now : Date) (st : St) (port : ℤ) : DayView :=
  match st.daily now port with
  | some d => ⟨py_round2 d.energy_kwh, py_round2 d.cost_bdt, format_runtime d.runtime_minutes⟩
  | none => ⟨0, 0, "0h 0m"⟩

/-- One per-port `monthly` entry of the dashboard dict. -/
structure MonthView where
  energy : ℚ
  cost : ℚ
deriving DecidableEq

/-- Per-port slice of this month's consumption as the dashboard displays it. -/
def month_view (now : Date) (st : St) (port : ℤ) : MonthView :=
  match st.monthly now.year now.month port with
  | some m => ⟨py_round2 m.energy_kwh, py_round2 m.cost_bdt⟩
  | none => ⟨0, 0⟩

/-- The `monthly['total']` entry: rounded cross-port totals plus a `days`
field. -/
structure MonthTotal where
  energy : ℚ
  cost : ℚ
  days : ℕ
deriving DecidableEq

/-- The read-model returned by `get_dashboard_data()`. -/
structure DashboardView where
  realtime : ℤ → RealtimeRec
  today : ℤ → DayView
  today_total : DayView
  monthly : ℤ → MonthView
  monthly_total : MonthTotal
  electricity_rate : ℚ

/-- The number of days in a month of the given year: the value the source's
dead `days_in_month` computation
(`(now.replace(day=1) + timedelta(days=32)).replace(day=1) - timedelta(days=1)`)
lands on (the last day of the current month). -/
def days_in_month (year month : ℕ) : ℕ :=
  if month = 2 then
    if year % 4 = 0 ∧ (year % 100 ≠ 0 ∨ year % 400 = 0) then 29 else 28
  else if month = 4 ∨ month = 6 ∨ month = 9 ∨ month = 11 then 30
  else 31

/-- `get_dashboard_data()`: per-port realtime/daily/monthly views for ports
1..4, cross-port totals accumulated from the UNROUNDED stored values (an
absent row contributes 0, as the source's `if daily:` guard skips it) and
rounded once, and the current day-of-month as the monthly `days` field (the
days-in-month intermediate is computed and discarded by the source). -/
def get_dashboard_data (now : Date) (st : St) : DashboardView :=
  let total_today_energy :=
    dailyEnergy now 1 st + dailyEnergy now 2 st + dailyEnergy now 3 st + dailyEnergy now 4 st
  let total_today_cost :=
    dailyCost now 1 st + dailyCost now 2 st + dailyCost now 3 st + dailyCost now 4 st
  let total_today_runtime :=
    dailyRuntime now 1 st + dailyRuntime now 2 st + dailyRuntime now 3 st + dailyRuntime now 4 st
  let total_month_energy :=
    monthlyEnergy now.year now.month 1 st + monthlyEnergy now.year now.month 2 st +
      monthlyEnergy now.year now.month 3 st + monthlyEnergy now.year now.month 4 st
  let total_month_cost :=
    monthlyCost now.year now.month 1 st + monthlyCost now.year now.month 2 st +
      monthlyCost now.year now.month 3 st + monthlyCost now.year now.month 4 st
  { realtime := realtime_view st
    today := daily_view now st
    today_total :=
      ⟨py_round2 total_today_energy, py_round2 total_today_cost,
        format_runtime total_today_runtime⟩
    monthly := month_view now st
    monthly_total := ⟨py_round2 total_month_energy, py_round2 total_month_cost, now.day⟩
    electricity_rate := get_electricity_rate st }

/-! ## Concrete fixtures used by witnesses and counterexamples -/

/-- A fresh database: no rows, rate at the built-in default 8.0 BDT/kWh. -/
def emptyState : St :=
  { realtime := fun _ => none
    daily := fun _ _ => none
    monthly := fun _ _ _ => none
    rate := 8 }

/-- A concrete date fixture. -/
def d0 : Date := ⟨2026, 10, 12⟩

/-- A state whose four daily and monthly rows each hold 0.004 (= 1/250)
energy and cost: each rounds to 0.00 on its own, while the sum 0.016 rounds
to 0.02. -/
def roundingState : St :=
  { realtime := fun _ => none
    daily := fun d p =>
      if d = d0 ∧ 1 ≤ p ∧ p ≤ 4 then some ⟨1 / 250, 1 / 250, 0⟩ else none
    monthly := fun y m p =>
      if y = 2026 ∧ m = 10 ∧ 1 ≤ p ∧ p ≤ 4 then some ⟨1 / 250, 1 / 250⟩ else none
    rate := 8 }

/-! ## Helper lemmas -/

/-- `int()` on a rational that denotes an integer is that integer. -/
lemma float_to_int_intCast (n : ℤ) : float_to_int (n : ℚ) = n := by
  unfold float_to_int
  split
  · exact Int.floor_intCast n
  · exact Int.ceil_intCast n

/-- The daily row written by `update_daily_consumption` at its key: the
prior value (0 for an absent row) plus the increments. -/
lemma daily_after_update (today : Date) (port : ℤ) (power : ℚ) (st : St) :
    (update_daily_consumption today port power st).daily today port
      = some
          ⟨dailyEnergy today port st + calculate_energy_kwh power 1,
            dailyCost today port st + calculate_energy_kwh power 1 * st.rate,
            if power > 0 then dailyRuntime today port st + 1
              else dailyRuntime today port st⟩ := by
  simp [update_daily_consumption, dailyEnergy, dailyCost, dailyRuntime, get_electricity_rate]

/-- The monthly row written by `update_monthly_consumption` at its key. -/
lemma monthly_after_update (year month : ℕ) (port : ℤ) (e c : ℚ) (st : St) :
    (update_monthly_consumption year month port e c st).monthly year month port
      = some ⟨monthlyEnergy year month port st + e, monthlyCost year month port st + c⟩ := by
  simp [update_monthly_consumption, monthlyEnergy, monthlyCost]

/-- `apply_reading` unfolded: the monthly update applied after the daily one,
with the increments both callers compute. -/
lemma apply_reading_def (now : Date) (port : ℤ) (power : ℚ) (st : St) :
    apply_reading now port power st
      = update_monthly_consumption now.year now.month port (calculate_energy_kwh power 1)
          (calculate_energy_kwh power 1 * st.rate) (update_daily_consumption now port power st) :=
  rfl

/-- Effect of one `apply_reading` on the daily energy at its key. -/
lemma apply_reading_dailyEnergy (now : Date) (port : ℤ) (power : ℚ) (st : St) :
    dailyEnergy now port (apply_reading now port power st)
      = dailyEnergy now port st + calculate_energy_kwh power 1 := by
  rw [apply_reading_def]
  simp [dailyEnergy, update_monthly_consumption, daily_after_update]

/-- Effect of one `apply_reading` on the daily cost at its key. -/
lemma apply_reading_dailyCost (now : Date) (port : ℤ) (power : ℚ) (st : St) :
    dailyCost now port (apply_reading now port power st)
      = dailyCost now port st + calculate_energy_kwh power 1 * st.rate := by
  rw [apply_reading_def]
  simp [dailyCost, update_monthly_consumption, daily_after_update]

/-- Effect of one `apply_reading` on the daily runtime at its key. -/
lemma apply_reading_dailyRuntime (now : Date) (port : ℤ) (power : ℚ) (st : St) :
    dailyRuntime now port (apply_reading now port power st)
      = if power > 0 then dailyRuntime now port st + 1 else dailyRuntime now port st := by
  rw [apply_reading_def]
  simp [dailyRuntime, update_monthly_consumption, daily_after_update]

/-- Effect of one `apply_reading` on the monthly energy at its key. -/
lemma apply_reading_monthlyEnergy (now : Date) (port : ℤ) (power : ℚ) (st : St) :
    monthlyEnergy now.year now.month port (apply_reading now port power st)
      = monthlyEnergy now.year now.month port st + calculate_energy_kwh power 1 := by
  rw [apply_reading_def]
  have hm : (update_daily_consumption now port power st).monthly = st.monthly := rfl
  simp [monthlyEnergy, monthly_after_update, hm]

/-- Effect of one `apply_reading` on the monthly cost at its key. -/
lemma apply_reading_monthlyCost (now : Date) (port : ℤ) (power : ℚ) (st : St) :
    monthlyCost now.year now.month port (apply_reading now port power st)
      = monthlyCost now.year now.month port st + calculate_energy_kwh power 1 * st.rate := by
  rw [apply_reading_def]
  have hm : (update_daily_consumption now port power st).monthly = st.monthly := rfl
  simp [monthlyCost, monthly_after_update, hm]

/-- `apply_reading` leaves the rate unchanged. -/
lemma apply_reading_rate (now : Date) (port : ℤ) (power : ℚ) (st : St) :
    (apply_reading now port power st).rate = st.rate := rfl

/-- After `apply_reading` the daily row at the key exists. -/
lemma apply_reading_daily_isSome (now : Date) (port : ℤ) (power : ℚ) (st : St) :
    ((apply_reading now port power st).daily now port).isSome = true := by
  rw [apply_reading_def]
  have h : (update_monthly_consumption now.year now.month port (calculate_energy_kwh power 1)
        (calculate_energy_kwh power 1 * st.rate) (update_daily_consumption now port power st)).daily
      = (update_daily_consumption now port power st).daily := rfl
  rw [h, daily_after_update]
  rfl

/-- After `apply_reading` the monthly row at the key exists. -/
lemma apply_reading_monthly_isSome (now : Date) (port : ℤ) (power : ℚ) (st : St) :
    ((apply_reading now port power st).monthly now.year now.month port).isSome = true := by
  rw [apply_reading_def, monthly_after_update]
  rfl

/-- The monthly update leaves the realtime table unchanged. -/
lemma update_monthly_realtime (y m : ℕ) (p : ℤ) (e c : ℚ) (s : St) :
    (update_monthly_consumption y m p e c s).realtime = s.realtime := rfl

/-- The daily update leaves the realtime table unchanged. -/
lemma update_daily_realtime (d : Date) (p : ℤ) (pw : ℚ) (s : St) :
    (update_daily_consumption d p pw s).realtime = s.realtime := rfl

/-- The success path of `receive_esp_data`: with all four fields present and
numeric and the port in range, the handler returns 200, broadcasts, and the
new state is the realtime overwrite followed by the daily and monthly
aggregation steps. -/
lemma receive_esp_data_valid (now : Date) (st : St) (port : ℤ) (v c pw : ℚ)
    (h1 : 1 ≤ port) (h2 : port ≤ 4) :
    receive_esp_data now st
        ⟨some (.num (port : ℚ)), some (.num v), some (.num c), some (.num pw)⟩
      = ⟨200,
          update_monthly_consumption now.year now.month port (calculate_energy_kwh pw 1)
            (calculate_energy_kwh pw 1 *
              get_electricity_rate (update_daily_consumption now port pw
                (update_realtime_data port v c pw st)))
            (update_daily_consumption now port pw (update_realtime_data port v c pw st)),
          true⟩ := by
  simp only [receive_esp_data, pyInt, pyFloat, float_to_int_intCast]
  rw [if_neg (by omega)]

/-! ## Claims -/

/-- C8: `format_runtime` renders a non-negative minute count `m` as
`"{m / 60}h {m % 60}m"` with integer division and modulo by 60; in
particular 125 minutes is `"2h 5m"` and 0 minutes is `"0h 0m"`. -/
theorem C8_format_runtime_spec :
    (∀ m : ℕ, format_runtime m = toString (m / 60) ++ "h " ++ toString (m % 60) ++ "m")
    ∧ format_runtime 125 = "2h 5m"
    ∧ format_runtime 0 = "0h 0m" :=
  ⟨fun _ => rfl, by decide, by decide⟩

/-- C9: the `days` field of the dashboard's monthly total is the current
day-of-month, not the number of days in the current month (which the source
also computes, as `days_in_month` models): on 2026-10-12 the field is 12
while October 2026 has 31 days. -/
theorem C9_monthly_days_field :
    (∀ (now : Date) (st : St), (get_dashboard_data now st).monthly_total.days = now.day)
    ∧ days_in_month d0.year d0.month = 31
    ∧ (∀ st : St,
        (get_dashboard_data d0 st).monthly_total.days ≠ days_in_month d0.year d0.month) := by
  refine ⟨fun now st => rfl, by norm_num [days_in_month, d0], fun st => ?_⟩
  norm_num [get_dashboard_data, days_in_month, d0]

/-- C3: `reset_daily_data` deletes every daily bucket dated today (every
port), so today's daily energy, cost and runtime all read as zero afterwards
and the per-port dashboard view shows the zero defaults, while every monthly
bucket is left exactly at its pre-reset value. -/
theorem C3_reset_today_frame (today : Date) (st : St) :
    (∀ p : ℤ, ((reset_daily_data today st).state).daily today p = none)
    ∧ (∀ p : ℤ,
        dailyEnergy today p ((reset_daily_data today st).state) = 0
        ∧ dailyCost today p ((reset_daily_data today st).state) = 0
        ∧ dailyRuntime today p ((reset_daily_data today st).state) = 0)
    ∧ (∀ p : ℤ, daily_view today ((reset_daily_data today st).state) p = ⟨0, 0, "0h 0m"⟩)
    ∧ ((reset_daily_data today st).state).monthly = st.monthly
    ∧ (∀ (y m : ℕ) (p : ℤ),
        monthlyEnergy y m p ((reset_daily_data today st).state) = monthlyEnergy y m p st
        ∧ monthlyCost y m p ((reset_daily_data today st).state) = monthlyCost y m p st) := by
  refine ⟨fun p => ?_, fun p => ?_, fun p => ?_, rfl, fun y m p => ⟨rfl, rfl⟩⟩
  · simp [reset_daily_data]
  · simp [reset_daily_data, dailyEnergy, dailyCost, dailyRuntime, zeroDaily]
  · simp [reset_daily_data, daily_view]

/-- C1: with the rate at 8.0, one `apply_reading` of a 600 W sample over the
fixed 1-minute interval adds exactly 600*1/60000 = 0.01 to the daily and
monthly energy and 0.01*8 = 0.08 to their cost; applied twice starting from
absent (zero) buckets, the accumulated totals are exactly 0.02 and 0.16. -/
theorem C1_accumulation_law (now : Date) (st : St) (port : ℤ) (hrate : st.rate = 8) :
    dailyEnergy now port (apply_reading now port 600 st) = dailyEnergy now port st + 0.01
    ∧ dailyCost now port (apply_reading now port 600 st) = dailyCost now port st + 0.08
    ∧ monthlyEnergy now.year now.month port (apply_reading now port 600 st)
        = monthlyEnergy now.year now.month port st + 0.01
    ∧ monthlyCost now.year now.month port (apply_reading now port 600 st)
        = monthlyCost now.year now.month port st + 0.08
    ∧ (st.daily now port = none →
        dailyEnergy now port (apply_reading now port 600 (apply_reading now port 600 st)) = 0.02
        ∧ dailyCost now port (apply_reading now port 600 (apply_reading now port 600 st)) = 0.16)
    ∧ (st.monthly now.year now.month port = none →
        monthlyEnergy now.year now.month port
            (apply_reading now port 600 (apply_reading now port 600 st)) = 0.02
        ∧ monthlyCost now.year now.month port
            (apply_reading now port 600 (apply_reading now port 600 st)) = 0.16) := by
  have hcal : calculate_energy_kwh 600 1 = 0.01 := by norm_num [calculate_energy_kwh]
  have hrate1 : (apply_reading now port 600 st).rate = 8 := by rw [apply_reading_rate, hrate]
  refine ⟨?_, ?_, ?_, ?_, fun hd => ⟨?_, ?_⟩, fun hm => ⟨?_, ?_⟩⟩
  · rw [apply_reading_dailyEnergy, hcal]
  · rw [apply_reading_dailyCost, hcal, hrate]; norm_num
  · rw [apply_reading_monthlyEnergy, hcal]
  · rw [apply_reading_monthlyCost, hcal, hrate]; norm_num
  · have h0 : dailyEnergy now port st = 0 := by simp [dailyEnergy, hd, zeroDaily]
    rw [apply_reading_dailyEnergy, apply_reading_dailyEnergy, hcal, h0]; norm_num
  · have h0 : dailyCost now port st = 0 := by simp [dailyCost, hd, zeroDaily]
    rw [apply_reading_dailyCost, apply_reading_dailyCost, hcal, hrate1, hrate, h0]; norm_num
  · have h0 : monthlyEnergy now.year now.month port st = 0 := by
      simp [monthlyEnergy, hm, zeroMonthly]
    rw [apply_reading_monthlyEnergy, apply_reading_monthlyEnergy, hcal, h0]; norm_num
  · have h0 : monthlyCost now.year now.month port st = 0 := by
      simp [monthlyCost, hm, zeroMonthly]
    rw [apply_reading_monthlyCost, apply_reading_monthlyCost, hcal, hrate1, hrate, h0]; norm_num

/-- Witness for C1 at the fresh database, port 1. -/
theorem C1_accumulation_law_witness :
    dailyEnergy d0 1 (apply_reading d0 1 600 emptyState) = dailyEnergy d0 1 emptyState + 0.01
    ∧ dailyCost d0 1 (apply_reading d0 1 600 emptyState) = dailyCost d0 1 emptyState + 0.08
    ∧ dailyEnergy d0 1 (apply_reading d0 1 600 (apply_reading d0 1 600 emptyState)) = 0.02
    ∧ dailyCost d0 1 (apply_reading d0 1 600 (apply_reading d0 1 600 emptyState)) = 0.16 := by
  have h := C1_accumulation_law d0 emptyState 1 rfl
  exact ⟨h.1, h.2.1, (h.2.2.2.2.1 rfl).1, (h.2.2.2.2.1 rfl).2⟩

/-- C2: one `apply_reading` never resets a bucket: the daily and monthly rows
at the key become exactly the prior value (0 when the row was absent) plus
the increment, the rows exist afterwards, every other key is untouched, and
for a valid reading (power ≥ 0, rate ≥ 0) energy and cost are non-decreasing. -/
theorem C2_monotone_accumulation (now : Date) (st : St) (port : ℤ) (power : ℚ)
    (hpow : 0 ≤ power) (hrate : 0 ≤ st.rate) :
    dailyEnergy now port (apply_reading now port power st)
        = dailyEnergy now port st + calculate_energy_kwh power 1
    ∧ dailyCost now port (apply_reading now port power st)
        = dailyCost now port st + calculate_energy_kwh power 1 * st.rate
    ∧ monthlyEnergy now.year now.month port (apply_reading now port power st)
        = monthlyEnergy now.year now.month port st + calculate_energy_kwh power 1
    ∧ monthlyCost now.year now.month port (apply_reading now port power st)
        = monthlyCost now.year now.month port st + calculate_energy_kwh power 1 * st.rate
    ∧ ((apply_reading now port power st).daily now port).isSome = true
    ∧ ((apply_reading now port power st).monthly now.year now.month port).isSome = true
    ∧ dailyEnergy now port st ≤ dailyEnergy now port (apply_reading now port power st)
    ∧ dailyCost now port st ≤ dailyCost now port (apply_reading now port power st)
    ∧ monthlyEnergy now.year now.month port st
        ≤ monthlyEnergy now.year now.month port (apply_reading now port power st)
    ∧ monthlyCost now.year now.month port st
        ≤ monthlyCost now.year now.month port (apply_reading now port power st)
    ∧ (∀ (d : Date) (p : ℤ), ¬(d = now ∧ p = port) →
        (apply_reading now port power st).daily d p = st.daily d p)
    ∧ (∀ (y m : ℕ) (p : ℤ), ¬(y = now.year ∧ m = now.month ∧ p = port) →
        (apply_reading now port power st).monthly y m p = st.monthly y m p) := by
  have hek : 0 ≤ calculate_energy_kwh power 1 := by
    unfold calculate_energy_kwh
    have : (0 : ℚ) ≤ power * 1 := by linarith
    exact div_nonneg this (by norm_num)
  have hck : 0 ≤ calculate_energy_kwh power 1 * st.rate := mul_nonneg hek hrate
  refine ⟨apply_reading_dailyEnergy now port power st,
    apply_reading_dailyCost now port power st,
    apply_reading_monthlyEnergy now port power st,
    apply_reading_monthlyCost now port power st,
    apply_reading_daily_isSome now port power st,
    apply_reading_monthly_isSome now port power st,
    ?_, ?_, ?_, ?_, ?_, ?_⟩
  · rw [apply_reading_dailyEnergy]; linarith
  · rw [apply_reading_dailyCost]; linarith
  · rw [apply_reading_monthlyEnergy]; linarith
  · rw [apply_reading_monthlyCost]; linarith
  · intro d p h
    show (update_daily_consumption now port power st).daily d p = st.daily d p
    simp only [update_daily_consumption]
    exact if_neg h
  · intro y m p h
    show (update_monthly_consumption now.year now.month port (calculate_energy_kwh power 1)
        (calculate_energy_kwh power 1 * st.rate)
        (update_daily_consumption now port power st)).monthly y m p = st.monthly y m p
    simp only [update_monthly_consumption]
    exact if_neg h

/-- Witness for C2 at the fresh database, port 2, a 600 W reading. -/
theorem C2_monotone_accumulation_witness :
    dailyEnergy d0 2 (apply_reading d0 2 600 emptyState)
        = dailyEnergy d0 2 emptyState + calculate_energy_kwh 600 1
    ∧ dailyEnergy d0 2 emptyState ≤ dailyEnergy d0 2 (apply_reading d0 2 600 emptyState)
    ∧ monthlyCost d0.year d0.month 2 emptyState
        ≤ monthlyCost d0.year d0.month 2 (apply_reading d0 2 600 emptyState) := by
  have h := C2_monotone_accumulation d0 emptyState 2 600 (by norm_num)
    (by norm_num [emptyState])
  exact ⟨h.1, h.2.2.2.2.2.2.1, h.2.2.2.2.2.2.2.2.2.1⟩

/-- C7: the daily runtime increases by the 1-minute interval exactly when the
sample's power is positive; a power-0 reading leaves runtime, energy and cost
unchanged (a zero increment) while still creating/writing the daily row. -/
theorem C7_runtime_only_when_power_positive (now : Date) (st : St) (port : ℤ) (power : ℚ) :
    (dailyRuntime now port (apply_reading now port power st)
        = if power > 0 then dailyRuntime now port st + 1 else dailyRuntime now port st)
    ∧ dailyRuntime now port (apply_reading now port 0 st) = dailyRuntime now port st
    ∧ dailyEnergy now port (apply_reading now port 0 st) = dailyEnergy now port st
    ∧ dailyCost now port (apply_reading now port 0 st) = dailyCost now port st
    ∧ monthlyEnergy now.year now.month port (apply_reading now port 0 st)
        = monthlyEnergy now.year now.month port st
    ∧ monthlyCost now.year now.month port (apply_reading now port 0 st)
        = monthlyCost now.year now.month port st
    ∧ ((apply_reading now port 0 st).daily now port).isSome = true := by
  refine ⟨apply_reading_dailyRuntime now port power st, ?_, ?_, ?_, ?_, ?_,
    apply_reading_daily_isSome now port 0 st⟩
  · rw [apply_reading_dailyRuntime]; norm_num
  · rw [apply_reading_dailyEnergy]; norm_num [calculate_energy_kwh]
  · rw [apply_reading_dailyCost]; norm_num [calculate_energy_kwh]
  · rw [apply_reading_monthlyEnergy]; norm_num [calculate_energy_kwh]
  · rw [apply_reading_monthlyCost]; norm_num [calculate_energy_kwh]

/-- C4: ingesting a valid reading (port in 1..4, numeric fields) succeeds
(200 + broadcast), and the dashboard projection then shows exactly that
reading as the realtime value of that port, with status `online` iff
power > 0, while the realtime rows and projected realtime values of every
other port are unchanged. -/
theorem C4_ingest_project_roundtrip (now : Date) (st : St) (port : ℤ) (v c pw : ℚ)
    (h1 : 1 ≤ port) (h2 : port ≤ 4) :
    (receive_esp_data now st
        ⟨some (.num (port : ℚ)), some (.num v), some (.num c), some (.num pw)⟩).status = 200
    ∧ (receive_esp_data now st
        ⟨some (.num (port : ℚ)), some (.num v), some (.num c), some (.num pw)⟩).broadcast = true
    ∧ (get_dashboard_data now (receive_esp_data now st
        ⟨some (.num (port : ℚ)), some (.num v), some (.num c), some (.num pw)⟩).state).realtime port
        = ⟨v, c, pw, if pw > 0 then "online" else "offline"⟩
    ∧ (∀ p : ℤ, p ≠ port →
        (receive_esp_data now st
          ⟨some (.num (port : ℚ)), some (.num v), some (.num c), some (.num pw)⟩).state.realtime p
          = st.realtime p)
    ∧ (∀ p : ℤ, p ≠ port →
        (get_dashboard_data now (receive_esp_data now st
          ⟨some (.num (port : ℚ)), some (.num v), some (.num c), some (.num pw)⟩).state).realtime p
          = (get_dashboard_data now st).realtime p) := by
  rw [receive_esp_data_valid now st port v c pw h1 h2]
  refine ⟨rfl, rfl, ?_, fun p hp => ?_, fun p hp => ?_⟩
  · show realtime_view _ port = _
    simp [realtime_view, update_monthly_realtime, update_daily_realtime, update_realtime_data]
  · show (update_realtime_data port v c pw st).realtime p = st.realtime p
    simp only [update_realtime_data]
    exact if_neg hp
  · show realtime_view _ p = realtime_view st p
    simp only [realtime_view, update_monthly_realtime, update_daily_realtime,
      update_realtime_data]
    rw [if_neg hp]

/-- Witness for C4: port 3 of the fresh database receives (220 V, 0.5 A,
110 W); the dashboard then shows exactly that reading on port 3 and port 4
is untouched. -/
theorem C4_ingest_project_roundtrip_witness :
    (receive_esp_data d0 emptyState
        ⟨some (.num ((3 : ℤ) : ℚ)), some (.num 220), some (.num (1 / 2)), some (.num 110)⟩).status
      = 200
    ∧ (get_dashboard_data d0 (receive_esp_data d0 emptyState
        ⟨some (.num ((3 : ℤ) : ℚ)), some (.num 220), some (.num (1 / 2)),
          some (.num 110)⟩).state).realtime 3
        = ⟨220, 1 / 2, 110, if (110 : ℚ) > 0 then "online" else "offline"⟩
    ∧ (receive_esp_data d0 emptyState
        ⟨some (.num ((3 : ℤ) : ℚ)), some (.num 220), some (.num (1 / 2)),
          some (.num 110)⟩).state.realtime 4 = emptyState.realtime 4 := by
  have h := C4_ingest_project_roundtrip d0 emptyState 3 220 (1 / 2) 110 (by decide) (by decide)
  exact ⟨h.1, h.2.2.1, h.2.2.2.1 4 (by decide)⟩

/-- C5: a request whose (numeric) port converts to a value outside 1..4 is
answered with the 400 validation error, the state is returned unchanged
(realtime, daily, monthly and settings alike), and no broadcast is emitted. -/
theorem C5_out_of_range_port_rejected (now : Date) (st : St) (pv vv cv pwv : PyVal)
    (port : ℤ) (hconv : pyInt pv = some port) (hrange : port < 1 ∨ port > 4) :
    (receive_esp_data now st ⟨some pv, some vv, some cv, some pwv⟩).status = 400
    ∧ (receive_esp_data now st ⟨some pv, some vv, some cv, some pwv⟩).state = st
    ∧ (receive_esp_data now st ⟨some pv, some vv, some cv, some pwv⟩).broadcast = false := by
  have h : receive_esp_data now st ⟨some pv, some vv, some cv, some pwv⟩ = ⟨400, st, false⟩ := by
    simp only [receive_esp_data, hconv]
    rw [if_pos hrange]
  rw [h]
  exact ⟨rfl, rfl, rfl⟩

/-- Witness for C5 at ports 5 and 0 against the fresh database. -/
theorem C5_out_of_range_port_rejected_witness :
    (receive_esp_data d0 emptyState
        ⟨some (.num 5), some (.num 220), some (.num 1), some (.num 100)⟩).status = 400
    ∧ (receive_esp_data d0 emptyState
        ⟨some (.num 5), some (.num 220), some (.num 1), some (.num 100)⟩).state = emptyState
    ∧ (receive_esp_data d0 emptyState
        ⟨some (.num 5), some (.num 220), some (.num 1), some (.num 100)⟩).broadcast = false
    ∧ (receive_esp_data d0 emptyState
        ⟨some (.num 0), some (.num 220), some (.num 1), some (.num 100)⟩).status = 400 := by
  have h5 := C5_out_of_range_port_rejected d0 emptyState (.num 5) (.num 220) (.num 1)
    (.num 100) 5 (by decide) (Or.inr (by decide))
  have h0 := C5_out_of_range_port_rejected d0 emptyState (.num 0) (.num 220) (.num 1)
    (.num 100) 0 (by decide) (Or.inl (by decide))
  exact ⟨h5.1, h5.2.1, h5.2.2, h0.1⟩

/-- C6 counterexample: a request whose `port` field is present but
non-numeric is answered with HTTP 500 (the catch-all handler), not with the
400 client error the claim asserts for missing/non-numeric fields. -/
theorem C6_counterexample_nonnumeric_is_500 :
    (receive_esp_data d0 emptyState
        ⟨some .nonNumeric, some (.num 220), some (.num 1), some (.num 100)⟩).status = 500
    ∧ (receive_esp_data d0 emptyState
        ⟨some .nonNumeric, some (.num 220), some (.num 1), some (.num 100)⟩).status ≠ 400 :=
  ⟨rfl, by decide⟩

/-- C6 (amended): a request missing a required field is rejected with 400 and
no state change or broadcast; a request whose required field is present but
non-numeric makes the conversion raise, which the catch-all handler surfaces
as 500 — a server error, not a 400 — still with no state change and no
broadcast. -/
theorem C6_amended_validation (now : Date) (st : St) :
    (∀ req : EspRequest,
        req.port = none ∨ req.voltage = none ∨ req.current = none ∨ req.power = none →
        receive_esp_data now st req = ⟨400, st, false⟩)
    ∧ (∀ vv cv pwv : PyVal,
        receive_esp_data now st ⟨some .nonNumeric, some vv, some cv, some pwv⟩
          = ⟨500, st, false⟩)
    ∧ (∀ (q : ℚ) (vv cv pwv : PyVal),
        1 ≤ float_to_int q → float_to_int q ≤ 4 →
        (pyFloat vv = none ∨ pyFloat cv = none ∨ pyFloat pwv = none) →
        receive_esp_data now st ⟨some (.num q), some vv, some cv, some pwv⟩
          = ⟨500, st, false⟩) := by
  refine ⟨?_, ?_, ?_⟩
  · rintro ⟨op, ov, oc, opw⟩ h
    cases op <;> cases ov <;> cases oc <;> cases opw <;> first | rfl | simp_all
  · intro vv cv pwv
    rfl
  · intro q vv cv pwv h1 h2 hbad
    simp only [receive_esp_data, pyInt]
    rw [if_neg (by omega)]
    cases vv <;> cases cv <;> cases pwv <;> simp_all [pyFloat]

/-- Witness for C6 (amended): a request missing its port gets 400; a request
with an in-range port and a non-numeric voltage gets 500; neither mutates the
fresh database or broadcasts. -/
theorem C6_amended_validation_witness :
    receive_esp_data d0 emptyState ⟨none, some (.num 220), some (.num 1), some (.num 100)⟩
      = ⟨400, emptyState, false⟩
    ∧ receive_esp_data d0 emptyState
        ⟨some (.num 2), some .nonNumeric, some (.num 1), some (.num 100)⟩
      = ⟨500, emptyState, false⟩ := by
  have h := C6_amended_validation d0 emptyState
  exact ⟨h.1 ⟨none, some (.num 220), some (.num 1), some (.num 100)⟩ (Or.inl rfl),
    h.2.2 2 .nonNumeric (.num 1) (.num 100) (by decide) (by decide) (Or.inl rfl)⟩

/-- C10: the cross-port dashboard totals are the sum of the UNROUNDED stored
bucket values rounded once to 2 decimals; with 0.004 in each of the four
buckets, each per-port display rounds to 0 while the displayed total is 0.02,
so the total differs from the sum of the displayed per-port values. -/
theorem C10_total_rounds_unrounded_sum :
    (∀ (now : Date) (st : St),
        (get_dashboard_data now st).today_total.energy
          = py_round2 (dailyEnergy now 1 st + dailyEnergy now 2 st
              + dailyEnergy now 3 st + dailyEnergy now 4 st)
        ∧ (get_dashboard_data now st).today_total.cost
          = py_round2 (dailyCost now 1 st + dailyCost now 2 st
              + dailyCost now 3 st + dailyCost now 4 st)
        ∧ (get_dashboard_data now st).monthly_total.energy
          = py_round2 (monthlyEnergy now.year now.month 1 st
              + monthlyEnergy now.year now.month 2 st
              + monthlyEnergy now.year now.month 3 st
              + monthlyEnergy now.year now.month 4 st)
        ∧ (get_dashboard_data now st).monthly_total.cost
          = py_round2 (monthlyCost now.year now.month 1 st
              + monthlyCost now.year now.month 2 st
              + monthlyCost now.year now.month 3 st
              + monthlyCost now.year now.month 4 st))
    ∧ (get_dashboard_data d0 roundingState).today_total.energy = 0.02
    ∧ ((get_dashboard_data d0 roundingState).today 1).energy
        + ((get_dashboard_data d0 roundingState).today 2).energy
        + ((get_dashboard_data d0 roundingState).today 3).energy
        + ((get_dashboard_data d0 roundingState).today 4).energy = 0
    ∧ (get_dashboard_data d0 roundingState).today_total.energy
        ≠ ((get_dashboard_data d0 roundingState).today 1).energy
          + ((get_dashboard_data d0 roundingState).today 2).energy
          + ((get_dashboard_data d0 roundingState).today 3).energy
          + ((get_dashboard_data d0 roundingState).today 4).energy
    ∧ (get_dashboard_data d0 roundingState).monthly_total.energy
        ≠ ((get_dashboard_data d0 roundingState).monthly 1).energy
          + ((get_dashboard_data d0 roundingState).monthly 2).energy
          + ((get_dashboard_data d0 roundingState).monthly 3).energy
          + ((get_dashboard_data d0 roundingState).monthly 4).energy := by
  have htotal : (get_dashboard_data d0 roundingState).today_total.energy = 0.02 := by
    show py_round2 (dailyEnergy d0 1 roundingState + dailyEnergy d0 2 roundingState
        + dailyEnergy d0 3 roundingState + dailyEnergy d0 4 roundingState) = 0.02
    norm_num [dailyEnergy, roundingState, py_round2, round_half_even, zeroDaily]
  have hport : ∀ p : ℤ, 1 ≤ p → p ≤ 4 →
      ((get_dashboard_data d0 roundingState).today p).energy = 0 := by
    intro p hp1 hp2
    show (daily_view d0 roundingState p).energy = 0
    have : roundingState.daily d0 p = some ⟨1 / 250, 1 / 250, 0⟩ := by
      simp [roundingState, hp1, hp2]
    rw [daily_view, this]
    norm_num [py_round2, round_half_even]
  have hmtotal : (get_dashboard_data d0 roundingState).monthly_total.energy = 0.02 := by
    show py_round2 (monthlyEnergy d0.year d0.month 1 roundingState
        + monthlyEnergy d0.year d0.month 2 roundingState
        + monthlyEnergy d0.year d0.month 3 roundingState
        + monthlyEnergy d0.year d0.month 4 roundingState) = 0.02
    norm_num [monthlyEnergy, roundingState, d0, py_round2, round_half_even, zeroMonthly]
  have hmport : ∀ p : ℤ, 1 ≤ p → p ≤ 4 →
      ((get_dashboard_data d0 roundingState).monthly p).energy = 0 := by
    intro p hp1 hp2
    show (month_view d0 roundingState p).energy = 0
    have : roundingState.monthly d0.year d0.month p = some ⟨1 / 250, 1 / 250⟩ := by
      simp [roundingState, d0, hp1, hp2]
    rw [month_view, this]
    norm_num [py_round2, round_half_even]
  refine ⟨fun now st => ⟨rfl, rfl, rfl, rfl⟩, htotal, ?_, ?_, ?_⟩
  · rw [hport 1 (by decide) (by decide), hport 2 (by decide) (by decide),
      hport 3 (by decide) (by decide), hport 4 (by decide) (by decide)]
    norm_num
  · rw [htotal, hport 1 (by decide) (by decide), hport 2 (by decide) (by decide),
      hport 3 (by decide) (by decide), hport 4 (by decide) (by decide)]
    norm_num
  · rw [hmtotal, hmport 1 (by decide) (by decide), hmport 2 (by decide) (by decide),
      hmport 3 (by decide) (by decide), hmport 4 (by decide) (by decide)]
    norm_num

end Multiplug
